import Mathlib

/-!
Shallow embedding of the `photon-bridge/mina-contract` repository.

The repository holds two versions of a Mina zkApp bridging a Celestia data log:

* `src/unnamed/part_000` — the current contract (`Photon` with state fields
  `celestiaBlocksTree`, `signerCount`, `signersTree`, `signersTreeAccumulator`
  and methods `initialize`, `update`, `register`), modelled below in
  namespace `Photon`;
* `src/src/Photon.ts` — an earlier contract (`Photon` with `celestiaRootHash`,
  `signerRootHash` and methods `updateCelestiaData`, `addSigner`), modelled in
  namespace `PhotonV2`.

External collaborators (hash, signatures, Merkle witnesses, the snarkyjs
Reducer) are modelled at their interfaces: `Poseidon` is an injective free
constructor (idealised collision resistance), a signature verifies exactly
under the key and message it was created for, a Merkle witness is the list of
sibling hashes with direction bits and `calculateRoot` recombines them, and
the Reducer is an append-only action log with a cursor, drained by `reduce`.
Field elements that are only ever small counters (`signingCount`,
`signerCount`, block heights) are embedded as `Nat`.
-/

deriving instance DecidableEq for Except

set_option maxRecDepth 100000

namespace Photon

/-- Field elements as a free algebra: literals (`Field(n)`), the field
encoding of a public key, and Poseidon applied to one or two field elements.
Distinct constructors model collision resistance of the hash and the fact
that the empty public key's encoding is not a field literal. -/
inductive F where
  | lit : Nat → F
  | pkField : Nat → F
  | poseidon1 : F → F
  | poseidon2 : F → F → F
deriving DecidableEq, Repr

/-- Public keys, abstracted to an identifier. `0` stands for the reserved
sentinel key (`EMPTY_PUBLIC_KEY = "B62qrhCn7DK2..."` in `part_000`,
`PublicKey.empty()` in `Photon.ts`). -/
abbrev PublicKey := Nat

/-- The sentinel public key constant `EMPTY_PUBLIC_KEY`. -/
def EMPTY_PUBLIC_KEY : PublicKey := 0

/-- `PublicKey.toFields`: the field encoding of a key, injective and disjoint
from field literals. -/
def pkToFields (k : PublicKey) : List F := [F.pkField k]

/-- `EMPTY_HASH = Field(0)` from `part_000` line 21. -/
def EMPTY_HASH : F := F.lit 0

/-- `MAX_CELESTIA_MERKLE_TREE_HEIGHT = 17` (`part_000` line 22). -/
def MAX_CELESTIA_MERKLE_TREE_HEIGHT : Nat := 17

/-- `MAX_BLOCK_COUNT = 65536` (`part_000` line 23). -/
def MAX_BLOCK_COUNT : Nat := 65536

/-- `MAX_SIGNER_MERKLE_TREE_HEIGHT = 9` (`part_000` line 24). -/
def MAX_SIGNER_MERKLE_TREE_HEIGHT : Nat := 9

/-- `MAX_SIGNER_COUNT = 200` (`part_000` line 25). -/
def MAX_SIGNER_COUNT : Nat := 200

/-- One level of a Merkle witness: the direction bit (`isLeft` — the current
node is the left child) and the sibling hash at that level. -/
structure WitnessStep where
  isLeft : Bool
  sibling : F
deriving DecidableEq, Repr

/-- A Merkle witness: sibling path from the leaf to the root, as produced by
snarkyjs `MerkleWitness(height)` (`height - 1` levels). -/
abbrev MerkleWitnessT := List WitnessStep

/-- One level of snarkyjs `calculateRoot`: combine the running hash with the
sibling, ordered by the direction bit
(`Poseidon.hash(isLeft ? [hash, sibling] : [sibling, hash])`). -/
def witnessStepUp (acc : F) (st : WitnessStep) : F :=
  if st.isLeft then F.poseidon2 acc st.sibling else F.poseidon2 st.sibling acc

/-- snarkyjs `MerkleWitness.calculateRoot(leaf)`: recombine the leaf with the
sibling path bottom-up. -/
def calculateRoot (w : MerkleWitnessT) (leaf : F) : F :=
  w.foldl witnessStepUp leaf

/-- Node hash of the all-empty subtree of a given height: level 0 is the
empty leaf `Field(0)`, each further level hashes two copies of the previous
one — as in snarkyjs `new MerkleTree(h)` with no leaves set. -/
def emptyNode : Nat → F
  | 0 => F.lit 0
  | n + 1 => F.poseidon2 (emptyNode n) (emptyNode n)

/-- Witness of slot 0 in an all-empty tree (`emptyTree.getWitness(0n)`): at
every level the node is the left child and the sibling is the empty subtree
hash of that level. -/
def emptyWitness (levels : Nat) : MerkleWitnessT :=
  (List.range levels).map (fun i => ⟨true, emptyNode i⟩)

/-- `CelestiaMerkleWitnessClass.empty()` (`part_000` lines 33-35). -/
def celestiaEmptyWitness : MerkleWitnessT :=
  emptyWitness (MAX_CELESTIA_MERKLE_TREE_HEIGHT - 1)

/-- `SignerMerkleWitnessClass.empty()` (`part_000` lines 39-41). -/
def signerEmptyWitness : MerkleWitnessT :=
  emptyWitness (MAX_SIGNER_MERKLE_TREE_HEIGHT - 1)

/-- `Signer` (`part_000` lines 47-102): public key, membership witness, and
the signing counter. -/
structure Signer where
  key : PublicKey
  witness : MerkleWitnessT
  signingCount : Nat
deriving DecidableEq, Repr

/-- `Signer.empty()` (`part_000` lines 67-73). -/
def Signer.empty : Signer :=
  ⟨EMPTY_PUBLIC_KEY, signerEmptyWitness, 0⟩

/-- `Signer.hash()` (`part_000` lines 85-87):
`Poseidon.hash(key.toFields().concat([signingCount]))`. -/
def Signer.hash (s : Signer) : F :=
  F.poseidon2 (F.pkField s.key) (F.lit s.signingCount)

/-- `Signer.check(root)` (`part_000` lines 76-82):
`root.equals(witness.calculateRoot(hash()))`. -/
def Signer.check (s : Signer) (root : F) : Bool :=
  root == calculateRoot s.witness s.hash

/-- `Signer.isEmpty()` (`part_000` lines 90-92). -/
def Signer.isEmpty (s : Signer) : Bool :=
  s.key == EMPTY_PUBLIC_KEY

/-- `Signer.sign()` (`part_000` lines 95-101): same signer with
`signingCount + 1`. -/
def Signer.sign (s : Signer) : Signer :=
  ⟨s.key, s.witness, s.signingCount + 1⟩

/-- `Block` (`part_000` lines 105-138). -/
structure Block where
  data : F
  height : Nat
  witness : MerkleWitnessT
deriving DecidableEq, Repr

/-- `Block.empty()` (`part_000` lines 126-132). -/
def Block.empty : Block :=
  ⟨F.lit 0, 0, celestiaEmptyWitness⟩

/-- `Block.hash()` (`part_000` lines 135-137): `Poseidon.hash([data, height])`. -/
def Block.hash (b : Block) : F :=
  F.poseidon2 b.data (F.lit b.height)

/-- Signatures, at the interface of the external scheme: `sigOver k m` is the
signature the holder of `k`'s private key creates over message `m`, and
`emptyBase58` is the `EMPTY_SIGNATURE` placeholder constant. -/
inductive Signature where
  | sigOver : PublicKey → List F → Signature
  | emptyBase58 : Signature
deriving DecidableEq, Repr

/-- `Signature.verify(publicKey, message)`: true exactly for the signature
created under that key over that message. -/
def Signature.verify (s : Signature) (k : PublicKey) (msg : List F) : Bool :=
  s == Signature.sigOver k msg

/-- `BlockProof` (`part_000` lines 142-196). -/
structure BlockProof where
  signer : Signer
  signedBlockHash : Signature
  signedBlockHeight : Nat
deriving DecidableEq, Repr

/-- `BlockProof.empty()` (`part_000` lines 163-169). -/
def BlockProof.empty : BlockProof :=
  ⟨Signer.empty, Signature.emptyBase58, 0⟩

/-- `BlockProof.isEmpty()` (`part_000` lines 172-174). -/
def BlockProof.isEmpty (p : BlockProof) : Bool :=
  p.signer.isEmpty

/-- `BlockProof.verify(signerRoot, block)` (`part_000` lines 177-195):
membership of the signer, signature over `[block.hash()]`, and matching
height. -/
def BlockProof.verify (p : BlockProof) (signerRoot : F) (block : Block) : Bool :=
  p.signer.check signerRoot
    && p.signedBlockHash.verify p.signer.key [block.hash]
    && (p.signedBlockHeight == block.height)

/-- `SignerProof` (`part_000` lines 200-243). -/
structure SignerProof where
  signer : Signer
  signedSignerHash : Signature
deriving DecidableEq, Repr

/-- `SignerProof.empty()` (`part_000` lines 217-222). -/
def SignerProof.empty : SignerProof :=
  ⟨Signer.empty, Signature.emptyBase58⟩

/-- `SignerProof.isEmpty()` (`part_000` lines 225-227). -/
def SignerProof.isEmpty (p : SignerProof) : Bool :=
  p.signer.isEmpty

/-- `SignerProof.verify(signerRoot, signer)` (`part_000` lines 230-242):
membership of the attesting signer and signature over
`signer.key.toFields().concat([signer.signingCount])`. -/
def SignerProof.verify (p : SignerProof) (signerRoot : F) (signer : Signer) : Bool :=
  p.signer.check signerRoot
    && p.signedSignerHash.verify p.signer.key
        (pkToFields signer.key ++ [F.lit signer.signingCount])

/-- `fillWithEmptyBlockProofs` (`part_000` lines 246-254). Note the source
pads up to `MAX_BLOCK_COUNT` (65536), not `MAX_SIGNER_COUNT`. -/
def fillWithEmptyBlockProofs (provers : List BlockProof) : List BlockProof :=
  provers ++ List.replicate (MAX_BLOCK_COUNT - provers.length) BlockProof.empty

/-- `fillWithEmptySignerProofs` (`part_000` lines 256-264): pads up to
`MAX_SIGNER_COUNT`. -/
def fillWithEmptySignerProofs (provers : List SignerProof) : List SignerProof :=
  provers ++ List.replicate (MAX_SIGNER_COUNT - provers.length) SignerProof.empty

/-- `new BlockProofList(provers)` (`part_000` lines 267-278):
`splice(0, MAX_SIGNER_COUNT)` then fill with empty proofs. -/
def BlockProofList.new (provers : List BlockProof) : List BlockProof :=
  fillWithEmptyBlockProofs (provers.take MAX_SIGNER_COUNT)

/-- `new SignerProofList(provers)` (`part_000` lines 281-292). -/
def SignerProofList.new (provers : List SignerProof) : List SignerProof :=
  fillWithEmptySignerProofs (provers.take MAX_SIGNER_COUNT)

/-- Failure taxonomy of the operations (spec §7). Each failing assertion in a
method aborts the whole transaction; the tag records which assertion fired. -/
inductive PhotonError where
  | alreadyInitialized
  | quorumNotMet
  | invalidAttestation
  | slotNotEmpty
  | doubleCounted
  | invalidSigningCount
deriving DecidableEq, Repr

/-- On-chain state of the `Photon` contract (`part_000` lines 295-298) plus
the Reducer's action queue. `actionLog` is the append-only list of dispatched
actions and `signersTreeAccumulator` the cursor marking how much of it has
been folded (the snarkyjs action state, abstracted to a position). -/
structure PhotonState where
  celestiaBlocksTree : F
  signerCount : Nat
  signersTree : F
  actionLog : List Signer
  signersTreeAccumulator : Nat
deriving DecidableEq, Repr

/-- `Reducer.initialActionState`, abstracted to position 0 in the log. -/
def initialActionState : Nat := 0

/-- `init()` (`part_000` lines 302-308): deployment-time state. -/
def initState : PhotonState :=
  ⟨EMPTY_HASH, 0, EMPTY_HASH, [], initialActionState⟩

/-- Modelled from the spec: the snarkyjs `Reducer` (external to this
repository) offers an append-only action log with cursor-based range drain
(spec §6); `getActions({ fromActionState })` returns the undrained suffix of
the log, which per spec §4.4 includes the actions enqueued by the running
operation. -/
def reducerGetActions (log : List Signer) (cursor : Nat) : List Signer :=
  log.drop cursor

/-- The `reducer.reduce` callback of `register` (`part_000` lines 462-466),
folded over the queued actions: assert the running root equals
`action.witness.calculateRoot(action.hash())`, then advance the action by one
signing and recompute the root. A failed root-equality assertion (an action
whose pre-state no longer matches) aborts with `doubleCounted`. -/
def foldActions : F → List Signer → Except PhotonError F
  | state, [] => .ok state
  | state, action :: rest =>
    if state = calculateRoot action.witness action.hash then
      foldActions (calculateRoot action.witness (action.sign).hash) rest
    else .error .doubleCounted

/-- The `initialize` method (`part_000` lines 311-323): assert the three
root/count fields are at their zero values, then set them to the
caller-supplied values. The accumulator field is not read or written by this
method. (Named `initializeContract` because the source's name is a reserved
word in Lean.) -/
def initializeContract (s : PhotonState) (initialCelestiaRootHash : F)
    (initialSignerCount : Nat) (initialSignerRootHash : F) :
    Except PhotonError PhotonState :=
  if s.celestiaBlocksTree ≠ EMPTY_HASH then .error .alreadyInitialized
  else if s.signerCount ≠ 0 then .error .alreadyInitialized
  else if s.signersTree ≠ EMPTY_HASH then .error .alreadyInitialized
  else .ok { s with
    celestiaBlocksTree := initialCelestiaRootHash
    signerCount := initialSignerCount
    signersTree := initialSignerRootHash }

/-- The 200 slots scanned by `update`'s loop (`part_000` lines 368-391): the
constructed `BlockProofList`, of which indices `0 ≤ i < MAX_SIGNER_COUNT` are
read. -/
def blockScan (provers : List BlockProof) : List BlockProof :=
  (BlockProofList.new provers).take MAX_SIGNER_COUNT

/-- The `allValid` accumulator of `update`'s loop (`part_000` lines 371-380):
every scanned slot is empty or verifies against the signer root and block. -/
def blockAllValid (signerRoot : F) (block : Block) (scan : List BlockProof) : Bool :=
  scan.all fun p => p.isEmpty || p.verify signerRoot block

/-- The `currSignerCount` accumulator of `update`'s loop (`part_000` lines
382-388): add `Provable.if(prover.isEmpty(), 0, 1)` per slot. -/
def blockSignerCount (scan : List BlockProof) : Nat :=
  scan.foldl (fun acc p => acc + (if p.isEmpty then 0 else 1)) 0

/-- `update` (`part_000` lines 326-412) on the list of the 20 supplied
proofs: zero-signer check, constant-shape scan, quorum threshold, then the
unconditional overwrite of `celestiaBlocksTree` with
`newBlock.witness.calculateRoot(newBlock.hash())` (line 407). The
`reducer.dispatch` / `reduce` calls of this method are commented out in the
source (lines 390, 396-405, 410-411) and therefore absent here. -/
def update (s : PhotonState) (newBlock : Block) (provers : List BlockProof) :
    Except PhotonError PhotonState :=
  if s.signerCount = 0 then .error .quorumNotMet
  else if ¬ blockAllValid s.signersTree newBlock (blockScan provers) then
    .error .invalidAttestation
  else if ¬ (blockSignerCount (blockScan provers) * 10 ≥ s.signerCount * 6) then
    .error .quorumNotMet
  else .ok { s with
    celestiaBlocksTree := calculateRoot newBlock.witness newBlock.hash }

/-- The `update` entry point's exact signature (`part_000` lines 326-348):
one new block and exactly twenty `BlockProof` parameters, collected into the
`BlockProofList` literal of lines 359-361. -/
def updateEntry (s : PhotonState) (newBlock : Block)
    (p1 p2 p3 p4 p5 p6 p7 p8 p9 p10
     p11 p12 p13 p14 p15 p16 p17 p18 p19 p20 : BlockProof) :
    Except PhotonError PhotonState :=
  update s newBlock
    [p1, p2, p3, p4, p5, p6, p7, p8, p9, p10,
     p11, p12, p13, p14, p15, p16, p17, p18, p19, p20]

/-- The 200 slots scanned by `register`'s loop (`part_000` lines 434-452). -/
def signerScan (provers : List SignerProof) : List SignerProof :=
  (SignerProofList.new provers).take MAX_SIGNER_COUNT

/-- The per-slot validity check of `register`'s loop (`part_000` lines
437-443): every slot empty or verifying. -/
def signerAllValid (signerRoot : F) (newSigner : Signer) (scan : List SignerProof) : Bool :=
  scan.all fun p => p.isEmpty || p.verify signerRoot newSigner

/-- The `currSignerCount` accumulation of `register`'s loop (`part_000`
lines 445-449): the source computes `currSignerCount.add(...)` but never
assigns the result back (unlike `update` line 382), so the accumulator the
quorum check reads stays at `Field(0)`. The fold mirrors that statement: the
sum is computed and discarded, the accumulator is returned unchanged. -/
def registerCurrSignerCount (scan : List SignerProof) : Nat :=
  scan.foldl (fun acc p =>
    let _ := acc + (if p.isEmpty then 0 else 1)
    acc) 0

/-- `register` (`part_000` lines 415-473): `signingCount == 0` precondition,
the prior-leaf check `signersTree == newSigner.witness.calculateRoot(
Block.empty().hash())` (lines 429-430 — note: the empty Block leaf, not the
empty Signer leaf), the per-slot scan with its discarded count, the quorum
threshold, the dispatch of every slot's signer (line 451) and of the new
signer (line 456), the reduce over the undrained action range (lines
459-468), and the commit of count, tree and accumulator (lines 470-472). -/
def register (s : PhotonState) (newSigner : Signer) (provers : List SignerProof) :
    Except PhotonError PhotonState :=
  if newSigner.signingCount ≠ 0 then .error .invalidSigningCount
  else if s.signersTree ≠ calculateRoot newSigner.witness Block.empty.hash then
    .error .slotNotEmpty
  else if ¬ signerAllValid s.signersTree newSigner (signerScan provers) then
    .error .invalidAttestation
  else if ¬ (registerCurrSignerCount (signerScan provers) * 10 ≥ s.signerCount * 6) then
    .error .quorumNotMet
  else
    match foldActions s.signersTree
        (reducerGetActions
          (s.actionLog ++ (signerScan provers).map (fun p => p.signer) ++ [newSigner])
          s.signersTreeAccumulator) with
    | .error e => .error e
    | .ok newSignersTree =>
      .ok { s with
        signerCount := s.signerCount + 1
        signersTree := newSignersTree
        actionLog :=
          s.actionLog ++ (signerScan provers).map (fun p => p.signer) ++ [newSigner]
        signersTreeAccumulator :=
          (s.actionLog ++ (signerScan provers).map (fun p => p.signer) ++ [newSigner]).length }

/-- Whether an operation committed (`Except.ok`). A failed assertion aborts
the whole transaction, leaving every persisted field unchanged. -/
def opOk : Except PhotonError PhotonState → Bool
  | .ok _ => true
  | .error _ => false

end Photon

namespace PhotonV2

open Photon

/-- On-chain state of the earlier contract (`src/src/Photon.ts` lines
117-118). -/
structure PhotonV2State where
  celestiaRootHash : F
  signerRootHash : F
deriving DecidableEq, Repr

/-- `Verifier` (`Photon.ts` lines 31-78). -/
structure Verifier where
  signerKey : PublicKey
  signerWitness : MerkleWitnessT
  signedDataPoint : Signature
deriving DecidableEq, Repr

/-- `Verifier.empty()` (`Photon.ts` lines 51-57): the zero public key and the
empty witness `new MerkleWitnessClass([])`. -/
def Verifier.empty : Verifier :=
  ⟨0, [], Signature.emptyBase58⟩

/-- `Verifier.isEmpty()` (`Photon.ts` lines 59-61). -/
def Verifier.isEmpty (v : Verifier) : Bool :=
  v.signerKey == 0

/-- `Verifier.check(root)` (`Photon.ts` lines 63-68), as the asserted
condition: the root equals the witness root of `Poseidon.hash(key.toFields())`. -/
def Verifier.check (v : Verifier) (root : F) : Bool :=
  root == calculateRoot v.signerWitness (F.poseidon1 (F.pkField v.signerKey))

/-- `Verifier.verify(messageHash)` (`Photon.ts` lines 70-77), as the asserted
condition: the stored signature verifies under the key over
`messageHash.toFields()`. -/
def Verifier.verify (v : Verifier) (messageHash : F) : Bool :=
  v.signedDataPoint.verify v.signerKey [messageHash]

/-- `fillWithEmptyVerifiers` (`Photon.ts` lines 80-87). -/
def fillWithEmptyVerifiers (verifiers : List Verifier) : List Verifier :=
  verifiers ++ List.replicate (MAX_SIGNER_COUNT - verifiers.length) Verifier.empty

/-- The signer-count loop of `updateCelestiaData` (`Photon.ts` lines
137-143): `verifierIsNotEmpty` starts true, is and-ed with each slot's
non-emptiness, and the count adds one while it holds — the length of the
leading non-empty prefix. -/
def v2SignerCount (l : List Verifier) : Nat :=
  (l.foldl (fun (acc : Nat × Bool) v =>
    let notEmpty := acc.2 && !(v.isEmpty)
    (acc.1 + (if notEmpty then 1 else 0), notEmpty)) (0, true)).1

/-- `updateCelestiaData` (`Photon.ts` lines 126-151): per-verifier membership
and signature assertions over the raw list, sentinel fill, quorum against
`MAX_SIGNER_COUNT * 6`, the compare-and-swap assertion
`celestiaRootHash == witness.calculateRoot(INITIAL_HASH)` (line 147), and the
commit of `witness.calculateRoot(newHash)` (lines 149-150). -/
def updateCelestiaData (s : PhotonV2State) (newCelestiaDataPointHash : F)
    (verifiers : List Verifier) (w : MerkleWitnessT) :
    Except PhotonError PhotonV2State :=
  if ¬ (verifiers.all fun v =>
      v.check s.signerRootHash && v.verify newCelestiaDataPointHash) then
    .error .invalidAttestation
  else if ¬ (v2SignerCount (fillWithEmptyVerifiers verifiers) * 10 ≥
      MAX_SIGNER_COUNT * 6) then
    .error .quorumNotMet
  else if s.celestiaRootHash ≠ calculateRoot w (F.lit 0) then
    .error .slotNotEmpty
  else
    .ok { s with celestiaRootHash := calculateRoot w newCelestiaDataPointHash }

end PhotonV2

namespace Photon

/-! ### Measure infrastructure for the action fold

`mu` counts, over the term structure of a root, the `signingCount` values sat
inside signer-leaf hashes `Poseidon(pkField k, lit c)`. Every applied fold
action raises the folded root's measure by exactly one, so a successful fold
visits pairwise-distinct roots — the engine's replay protection. -/

/-- Whether a field element is a binary Poseidon node. -/
def isP2 : F → Bool
  | .poseidon2 _ _ => true
  | _ => false

/-- Contribution of a `poseidon2 a b` node shaped like a signer leaf
(`a = pkField _`, `b = lit c`): the count `c`. -/
def pairWeight : F → F → Nat
  | .pkField _, .lit c => c
  | _, _ => 0

/-- Sum of the signer-leaf counts occurring in a term. -/
def mu : F → Nat
  | .lit _ => 0
  | .pkField _ => 0
  | .poseidon1 a => mu a
  | .poseidon2 a b => mu a + mu b + pairWeight a b

/-! ### Concrete scenario inputs

Small closed instances used to evaluate the operations: Merkle roots are
built from explicit witnesses, and where two different witnesses must agree
on one root the two leaves are placed as siblings. -/

/-- A registered signer whose membership witness is the empty path (its leaf
hash is the whole root). -/
def c1Signer : Signer := ⟨1, [], 0⟩

/-- Signer root containing exactly `c1Signer`. -/
def c1Root : F := c1Signer.hash

/-- State with one registered signer. -/
def c1State : PhotonState := ⟨F.lit 0, 1, c1Root, [], 0⟩

/-- A new block at height 3. -/
def c1Block : Block := ⟨F.lit 7, 3, [⟨true, F.lit 0⟩]⟩

/-- A valid attestation by `c1Signer` over `c1Block`. -/
def c1Proof : BlockProof := ⟨c1Signer, .sigOver 1 [c1Block.hash], 3⟩

/-- The attesting signer for the register-side scenario, sitting as the right
child next to the empty-block leaf. -/
def c1qSigner : Signer := ⟨1, [⟨false, Block.empty.hash⟩], 0⟩

/-- Root with the empty-block leaf and `c1qSigner`'s leaf as siblings. -/
def c1qRoot : F := F.poseidon2 Block.empty.hash c1qSigner.hash

/-- State with one registered signer for the register-side scenario. -/
def c1qState : PhotonState := ⟨F.lit 0, 1, c1qRoot, [], 0⟩

/-- The proposed new signer, whose target-slot witness points at the
empty-block leaf of `c1qRoot`. -/
def c1qNewSigner : Signer := ⟨2, [⟨true, c1qSigner.hash⟩], 0⟩

/-- A valid attestation by `c1qSigner` over the proposed signer. -/
def c1qProof : SignerProof := ⟨c1qSigner, .sigOver 1 (pkToFields 2 ++ [F.lit 0])⟩

/-- A proposed signer with the empty witness for the empty-sentinel-leaf
scenario. -/
def c2NewSigner : Signer := ⟨3, [], 0⟩

/-- State whose signer root is exactly the sentinel empty-identity leaf
`Signer.empty().hash()` — the repository's own test pads unused signer-tree
slots with this leaf (`Photon.test.ts` lines 132-133). -/
def c2State : PhotonState := ⟨F.lit 0, 0, Signer.empty.hash, [], 0⟩

/-- Signer for the missing-CAS scenario. -/
def c3Signer : Signer := ⟨1, [], 0⟩

/-- State whose log root `lit 99` is not the witness-root of any leaf under
the block's non-empty witness. -/
def c3State : PhotonState := ⟨F.lit 99, 1, c3Signer.hash, [], 0⟩

/-- Block with a non-empty witness. -/
def c3Block : Block := ⟨F.lit 7, 3, [⟨true, F.lit 0⟩]⟩

/-- A valid attestation by `c3Signer` over `c3Block`. -/
def c3Proof : BlockProof := ⟨c3Signer, .sigOver 1 [c3Block.hash], 3⟩

/-- The state `update` commits from `c3State`. -/
def c3ResultState : PhotonState :=
  { c3State with celestiaBlocksTree := calculateRoot c3Block.witness c3Block.hash }

/-- State whose identity root (`lit 3`) is not the witness-root of the
expected empty leaf under the proposed signer's witness. -/
def c3qState : PhotonState := ⟨F.lit 0, 0, F.lit 3, [], 0⟩

/-- A proposed signer with the empty witness for the register-gate
scenario. -/
def c3qNewSigner : Signer := ⟨4, [], 0⟩

/-- A valid V2 verifier with the empty witness. -/
def c3vVerifier : PhotonV2.Verifier := ⟨1, [], .sigOver 1 [F.lit 42]⟩

/-- V2 state whose log root holds the empty leaf under the chosen witness. -/
def c3vState : PhotonV2.PhotonV2State :=
  ⟨calculateRoot [⟨true, F.lit 5⟩] (F.lit 0), F.poseidon1 (F.pkField 1)⟩

/-- An action advancing identity 1 from count 0. -/
def c4Action0 : Signer := ⟨1, [], 0⟩

/-- An action advancing identity 1 from count 1 — the post-increment state of
`c4Action0`. -/
def c4Action1 : Signer := ⟨1, [], 1⟩

/-- The sentinel empty-identity leaf hash. -/
def c5EmptyLeaf : F := Signer.empty.hash

/-- Signer root whose slot 0 holds the sentinel identity leaf and whose
remaining slots are empty-subtree hashes. -/
def c5Tree : F := calculateRoot signerEmptyWitness c5EmptyLeaf

/-- The first seven levels of `c5Tree`'s recombination. -/
def c5Mid : F := calculateRoot (emptyWitness 7) c5EmptyLeaf

/-- A witness into `c5Tree` whose slot holds `Block.empty().hash()` — the
empty-block leaf happens to equal the height-1 empty-subtree hash, so such a
slot exists inside the empty region of the tree. -/
def c5NewSignerWitness : MerkleWitnessT :=
  [⟨true, emptyNode 1⟩, ⟨true, emptyNode 2⟩, ⟨true, emptyNode 3⟩,
   ⟨true, emptyNode 4⟩, ⟨true, emptyNode 5⟩, ⟨true, emptyNode 6⟩,
   ⟨false, c5Mid⟩]

/-- Maximally favourable register state: no registered signers (the dropped
count accumulation makes the quorum check pass only there) and a signer root
containing the target slot. -/
def c5State : PhotonState := ⟨F.lit 0, 0, c5Tree, [], 0⟩

/-- The proposed new signer for the favourable register call. -/
def c5NewSigner : Signer := ⟨5, c5NewSignerWitness, 0⟩

/-- The proposed signer with a non-zero `signingCount`. -/
def c5BadSigner : Signer := ⟨5, c5NewSignerWitness, 1⟩

/-- A non-sentinel block attestation whose signature was created under the
wrong key, so its verification fails. -/
def c7BadProof : BlockProof := ⟨c1Signer, .sigOver 9 [c1Block.hash], 3⟩

/-- A non-sentinel signer attestation that fails verification against
`c2State`. -/
def c7qBadProof : SignerProof := ⟨⟨9, [], 0⟩, .sigOver 7 []⟩

/-- State with 34 registered signers, above the largest quorum the 20 proof
slots can ever satisfy. -/
def c9State : PhotonState := ⟨F.lit 0, 34, F.lit 1, [], 0⟩

/-- State with two registered signers for the duplicate-attestation
scenario. -/
def c10State : PhotonState := ⟨F.lit 0, 2, c1Signer.hash, [], 0⟩

/-- State with zeroed root/count fields but a non-initial accumulator
cursor. -/
def c8State : PhotonState := ⟨F.lit 0, 0, F.lit 0, List.replicate 7 Signer.empty, 7⟩

/-- The state the one-time setup commits from `c8State`: the three fields are
set, the accumulator cursor keeps its old value 7. -/
def c8ResultState : PhotonState :=
  ⟨F.lit 1, 5, F.lit 2, List.replicate 7 Signer.empty, 7⟩

/-- The state `updateCelestiaData` commits from `c3vState`. -/
def c3vResult : PhotonV2.PhotonV2State :=
  ⟨calculateRoot [⟨true, F.lit 5⟩] (F.lit 42), c3vState.signerRootHash⟩

/-- Uninitialised state with no registered signers. -/
def c6wState : PhotonState := ⟨F.lit 0, 0, F.lit 0, [], 0⟩

/-- State whose log root is already non-zero. -/
def c8BadState : PhotonState := ⟨F.lit 1, 0, F.lit 0, [], 0⟩

end Photon

namespace Photon

/-! ### Structural lemmas about the hash algebra and witness recombination -/

theorem pairWeight_left_p2 (x y b : F) : pairWeight (F.poseidon2 x y) b = 0 := by
  cases b <;> rfl

theorem pairWeight_right_p2 (a x y : F) : pairWeight a (F.poseidon2 x y) = 0 := by
  cases a <;> rfl

theorem calculateRoot_nil (l : F) : calculateRoot [] l = l := rfl

theorem calculateRoot_cons (st : WitnessStep) (w : MerkleWitnessT) (l : F) :
    calculateRoot (st :: w) l = calculateRoot w (witnessStepUp l st) := rfl

theorem isP2_witnessStepUp (a : F) (st : WitnessStep) :
    isP2 (witnessStepUp a st) = true := by
  unfold witnessStepUp
  split <;> rfl

theorem mu_witnessStepUp (a : F) (st : WitnessStep) (h : isP2 a = true) :
    mu (witnessStepUp a st) = mu a + mu st.sibling := by
  cases a with
  | poseidon2 x y =>
    unfold witnessStepUp
    split
    · simp [mu, pairWeight_left_p2]
    · simp [mu, pairWeight_right_p2]
      try omega
  | lit n => simp [isP2] at h
  | pkField k => simp [isP2] at h
  | poseidon1 x => simp [isP2] at h

theorem mu_calculateRoot_succ (w : MerkleWitnessT) :
    ∀ a b : F, isP2 a = true → isP2 b = true → mu a = mu b + 1 →
    mu (calculateRoot w a) = mu (calculateRoot w b) + 1 := by
  induction w with
  | nil =>
    intro a b _ _ h
    simpa [calculateRoot_nil] using h
  | cons st w ih =>
    intro a b ha hb h
    rw [calculateRoot_cons, calculateRoot_cons]
    refine ih _ _ (isP2_witnessStepUp a st) (isP2_witnessStepUp b st) ?_
    rw [mu_witnessStepUp a st ha, mu_witnessStepUp b st hb]
    omega

theorem witnessStepUp_inj (st : WitnessStep) (a b : F)
    (h : witnessStepUp a st = witnessStepUp b st) : a = b := by
  unfold witnessStepUp at h
  split at h <;> injection h

theorem calculateRoot_inj_leaf (w : MerkleWitnessT) :
    ∀ a b : F, calculateRoot w a = calculateRoot w b → a = b := by
  induction w with
  | nil => intro a b h; simpa [calculateRoot_nil] using h
  | cons st w ih =>
    intro a b h
    rw [calculateRoot_cons, calculateRoot_cons] at h
    exact witnessStepUp_inj st a b (ih _ _ h)

/-! ### Lemmas about the action fold -/

theorem isP2_signerHash (a : Signer) : isP2 a.hash = true := rfl

theorem mu_signerHash (a : Signer) : mu a.hash = a.signingCount := by
  simp [Signer.hash, mu, pairWeight]

theorem mu_actionStep (a : Signer) :
    mu (calculateRoot a.witness (a.sign).hash) =
      mu (calculateRoot a.witness a.hash) + 1 := by
  refine mu_calculateRoot_succ a.witness _ _ (isP2_signerHash _) (isP2_signerHash _) ?_
  rw [mu_signerHash, mu_signerHash]
  rfl

theorem foldActions_cons (s : F) (a : Signer) (rest : List Signer) :
    foldActions s (a :: rest) =
      if s = calculateRoot a.witness a.hash then
        foldActions (calculateRoot a.witness (a.sign).hash) rest
      else .error .doubleCounted := rfl

theorem foldActions_ok_cons {s : F} {a : Signer} {rest : List Signer} {r : F}
    (h : foldActions s (a :: rest) = .ok r) :
    s = calculateRoot a.witness a.hash ∧
    foldActions (calculateRoot a.witness (a.sign).hash) rest = .ok r := by
  rw [foldActions_cons] at h
  split at h
  · exact ⟨by assumption, h⟩
  · cases h

theorem foldActions_error {s : F} {L : List Signer} {e : PhotonError}
    (h : foldActions s L = .error e) : e = .doubleCounted := by
  induction L generalizing s with
  | nil => cases h
  | cons a rest ih =>
    rw [foldActions_cons] at h
    split at h
    · exact ih h
    · injection h with h1
      exact h1.symm

theorem foldActions_ok_mu {L : List Signer} :
    ∀ {s r : F}, foldActions s L = .ok r → mu r = mu s + L.length := by
  induction L with
  | nil =>
    intro s r h
    cases h
    simp
  | cons a rest ih =>
    intro s r h
    obtain ⟨hs, hrest⟩ := foldActions_ok_cons h
    have hr := ih hrest
    rw [hr, mu_actionStep a, ← hs, List.length_cons]
    omega

theorem foldActions_append_ok {X Y : List Signer} :
    ∀ {s r : F}, foldActions s (X ++ Y) = .ok r →
    ∃ m, foldActions s X = .ok m ∧ foldActions m Y = .ok r := by
  induction X with
  | nil =>
    intro s r h
    exact ⟨s, rfl, by simpa using h⟩
  | cons a rest ih =>
    intro s r h
    rw [List.cons_append, foldActions_cons] at h
    split at h
    case isTrue hc =>
      obtain ⟨m, h1, h2⟩ := ih h
      refine ⟨m, ?_, h2⟩
      rw [foldActions_cons, if_pos hc]
      exact h1
    case isFalse => cases h

/-! ### Lemmas about the scan lists and counters -/

theorem blockSignerCount_go (l : List BlockProof) :
    ∀ n : Nat, l.foldl (fun acc p => acc + (if p.isEmpty then 0 else 1)) n =
      n + (l.filter fun p => !p.isEmpty).length := by
  induction l with
  | nil => intro n; simp
  | cons p l ih =>
    intro n
    rw [List.foldl_cons, ih, List.filter_cons]
    cases hp : p.isEmpty
    · simp [hp]
      omega
    · simp [hp]

theorem blockSignerCount_eq (l : List BlockProof) :
    blockSignerCount l = (l.filter fun p => !p.isEmpty).length := by
  simpa using blockSignerCount_go l 0

theorem blockScan_eq (ps : List BlockProof) :
    blockScan ps =
      ps.take 200 ++ List.replicate (200 - (ps.take 200).length) BlockProof.empty := by
  have hlen : (ps.take 200).length ≤ 200 := by
    simp
  show (((ps.take 200) ++
      List.replicate (65536 - (ps.take 200).length) BlockProof.empty).take 200) = _
  rw [List.take_append_eq_append_take, List.take_of_length_le hlen, List.take_replicate,
    Nat.min_eq_left (by omega)]

theorem blockProofEmpty_isEmpty : BlockProof.empty.isEmpty = true := rfl

theorem blockSignerCount_scan_le (ps : List BlockProof) :
    blockSignerCount (blockScan ps) ≤ ps.length := by
  rw [blockScan_eq, blockSignerCount_eq, List.filter_append, List.filter_replicate]
  simp [blockProofEmpty_isEmpty]
  calc ((ps.take 200).filter fun p => !p.isEmpty).length
      ≤ (ps.take 200).length := List.length_filter_le _ _
    _ ≤ ps.length := by simp

theorem registerCurrSignerCount_eq (l : List SignerProof) :
    registerCurrSignerCount l = 0 := by
  unfold registerCurrSignerCount
  induction l with
  | nil => rfl
  | cons p l ih => simp [ih]

theorem blockSignerCount_scan_replicate (p : BlockProof) (k : Nat)
    (hk : k ≤ 200) (hp : p.isEmpty = false) :
    blockSignerCount (blockScan (List.replicate k p)) = k := by
  rw [blockScan_eq, blockSignerCount_eq, List.take_replicate,
    Nat.min_eq_right hk, List.filter_append, List.filter_replicate,
    List.filter_replicate]
  simp [hp, blockProofEmpty_isEmpty]

/-! ### Characterisations of the operations -/

theorem update_ok_iff (s : PhotonState) (b : Block) (ps : List BlockProof) :
    opOk (update s b ps) = true ↔
      (s.signerCount ≠ 0 ∧
       blockAllValid s.signersTree b (blockScan ps) = true ∧
       blockSignerCount (blockScan ps) * 10 ≥ s.signerCount * 6) := by
  unfold update
  split
  case isTrue h => simp [opOk, h]
  case isFalse h1 =>
    split
    case isTrue h2 => simp [opOk, h1]; intro hv; exact absurd hv h2
    case isFalse h2 =>
      split
      case isTrue h3 =>
        simp [opOk, h1]
        intro _
        omega
      case isFalse h3 =>
        simp [opOk, h1, not_not.mp h2, Nat.le_of_not_lt]
        omega

theorem register_ok_allValid {s : PhotonState} {ns : Signer}
    {ps : List SignerProof} {r : PhotonState} (h : register s ns ps = .ok r) :
    signerAllValid s.signersTree ns (signerScan ps) = true := by
  unfold register at h
  split at h
  · cases h
  split at h
  · cases h
  split at h
  case isTrue h3 => cases h
  case isFalse h3 => exact not_not.mp h3

theorem register_ne_quorumNotMet_of_zero (s : PhotonState) (ns : Signer)
    (ps : List SignerProof) (h : s.signerCount = 0) :
    register s ns ps ≠ .error .quorumNotMet := by
  intro hc
  unfold register at hc
  split at hc
  · injection hc with h1; cases h1
  split at hc
  · injection hc with h1; cases h1
  split at hc
  · injection hc with h1; cases h1
  split at hc
  case isTrue h4 =>
    rw [h] at h4
    simp at h4
  case isFalse h4 =>
    split at hc
    case h_1 e he =>
      injection hc with h1
      rw [h1] at he
      have := foldActions_error he
      cases this
    case h_2 => cases hc

/-! ### Claim theorems -/

/-- C1: the claim states that both quorum-gated operations pass their quorum
check exactly when `10*k ≥ 6*N` for `N > 0` registered identities and `k`
valid non-sentinel attestations. This holds for `update` (shown at `N = 1`,
`k = 1`), but `register` never assigns the result of
`currSignerCount.add(...)` (`part_000` lines 445-449), so its quorum
comparison reads `0 ≥ 6*N` and rejects the same `N = 1`, `k = 1` batch with
`QuorumNotMet` — contradicting the code's own comment at line 454. -/
theorem claim1_quorum_floor_register_drops_count :
    opOk (update c1State c1Block [c1Proof]) = true ∧
    blockSignerCount (blockScan [c1Proof]) = 1 ∧
    c1State.signerCount = 1 ∧
    signerAllValid c1qState.signersTree c1qNewSigner (signerScan [c1qProof]) = true ∧
    ((signerScan [c1qProof]).filter fun p => !p.isEmpty).length = 1 ∧
    c1qState.signerCount = 1 ∧
    registerCurrSignerCount (signerScan [c1qProof]) = 0 ∧
    register c1qState c1qNewSigner [c1qProof] = .error .quorumNotMet := by
  decide

/-- C2: the claim states that registration demands the target witness prove
the slot holds the sentinel empty-identity leaf. The code (`part_000` line
429) instead demands the empty-Block leaf `Block.empty().hash()`: a state
whose identity root genuinely holds the sentinel `Signer.empty().hash()`
leaf under the proposed witness — exactly how the repository's own test pads
unused signer slots (`Photon.test.ts` lines 132-133) — is rejected with
`SlotNotEmpty`, because the two sentinel leaves are distinct hashes. -/
theorem claim2_register_checks_block_sentinel :
    c2State.signersTree = calculateRoot c2NewSigner.witness Signer.empty.hash ∧
    Signer.empty.hash ≠ Block.empty.hash ∧
    register c2State c2NewSigner [] = .error .slotNotEmpty := by
  decide

/-- C3 counterexample: the claim states `update` asserts the current logRoot
equals `computeRoot(entry.witness, oldLeaf)` before committing. It does not:
`update` commits from a state whose logRoot (`lit 99`) is not the witness
root of any leaf under the supplied non-empty witness. -/
theorem claim3_counterexample :
    ¬ (∀ (s : PhotonState) (b : Block) (ps : List BlockProof) (s2 : PhotonState),
        update s b ps = .ok s2 →
        ∃ oldLeaf : F, s.celestiaBlocksTree = calculateRoot b.witness oldLeaf) := by
  intro hclaim
  obtain ⟨oldLeaf, hold⟩ := hclaim c3State c3Block [c3Proof] c3ResultState (by decide)
  have hold2 : F.lit 99 = F.poseidon2 oldLeaf (F.lit 0) := hold
  exact F.noConfusion hold2

/-- C3 amended: `update` performs no compare-and-swap on the log root — it
unconditionally commits `computeRoot(entry.witness, H(commitment, index))`
once quorum passes, leaving the other persisted fields unchanged. The
CAS-over-a-root pattern does appear in the other root writes: `register`
asserts the current identityRoot equals `computeRoot(newSigner.witness,
expected-empty leaf)` before anything can be committed, rejecting
`SlotNotEmpty` on mismatch, and `updateCelestiaData` of the earlier contract
asserts the current root equals `computeRoot(witness, INITIAL_HASH)` before
committing `computeRoot(witness, newLeafHash)`. -/
theorem claim3_update_commits_without_cas :
    (∀ (s : PhotonState) (b : Block) (ps : List BlockProof) (s2 : PhotonState),
        update s b ps = .ok s2 →
        s2.celestiaBlocksTree = calculateRoot b.witness b.hash ∧
        s2.signerCount = s.signerCount ∧ s2.signersTree = s.signersTree ∧
        s2.actionLog = s.actionLog ∧
        s2.signersTreeAccumulator = s.signersTreeAccumulator) ∧
    (∀ (s : PhotonState) (ns : Signer) (ps : List SignerProof),
        ns.signingCount = 0 →
        s.signersTree ≠ calculateRoot ns.witness Block.empty.hash →
        register s ns ps = .error .slotNotEmpty) ∧
    (∀ (s : PhotonV2.PhotonV2State) (nh : F) (vs : List PhotonV2.Verifier)
        (w : MerkleWitnessT) (s2 : PhotonV2.PhotonV2State),
        PhotonV2.updateCelestiaData s nh vs w = .ok s2 →
        s.celestiaRootHash = calculateRoot w (F.lit 0) ∧
        s2.celestiaRootHash = calculateRoot w nh) := by
  refine ⟨?_, ?_, ?_⟩
  · intro s b ps s2 h
    unfold update at h
    split at h
    · cases h
    split at h
    · cases h
    split at h
    · cases h
    injection h with h2
    rw [← h2]
    exact ⟨rfl, rfl, rfl, rfl, rfl⟩
  · intro s ns ps h0 hne
    unfold register
    rw [if_neg (by simp [h0]), if_pos hne]
  · intro s nh vs w s2 h
    unfold PhotonV2.updateCelestiaData at h
    split at h
    · cases h
    split at h
    · cases h
    split at h
    case isTrue => cases h
    case isFalse hcas =>
      injection h with h2
      rw [← h2]
      exact ⟨not_not.mp hcas, rfl⟩

/-- C3 witness: the amended theorem applied at a concrete commit of `update`
and `updateCelestiaData`, and at a concrete `register` call whose identity
root fails the CAS gate. -/
theorem claim3_witness :
    c3ResultState.celestiaBlocksTree = calculateRoot c3Block.witness c3Block.hash ∧
    (c3qNewSigner.signingCount = 0 ∧
     c3qState.signersTree ≠ calculateRoot c3qNewSigner.witness Block.empty.hash ∧
     register c3qState c3qNewSigner [] = .error .slotNotEmpty) ∧
    c3vState.celestiaRootHash = calculateRoot [⟨true, F.lit 5⟩] (F.lit 0) ∧
    c3vResult.celestiaRootHash = calculateRoot [⟨true, F.lit 5⟩] (F.lit 42) :=
  ⟨(claim3_update_commits_without_cas.1 c3State c3Block [c3Proof] c3ResultState
      (by decide)).1,
   ⟨by decide, by decide,
    claim3_update_commits_without_cas.2.1 c3qState c3qNewSigner []
      (by decide) (by decide)⟩,
   (claim3_update_commits_without_cas.2.2 c3vState (F.lit 42)
      (List.replicate 120 c3vVerifier) [⟨true, F.lit 5⟩] c3vResult (by decide)).1,
   (claim3_update_commits_without_cas.2.2 c3vState (F.lit 42)
      (List.replicate 120 c3vVerifier) [⟨true, F.lit 5⟩] c3vResult (by decide)).2⟩

/-- C4 counterexample: the claim states each identity can be advanced by at
most one queued action per fold pass. Two queued actions for the same
identity — the second carrying the first's post-increment state — both pass
the root-equality precondition in a single pass, advancing the identity's
counter from 0 to 2. -/
theorem claim4_counterexample :
    c4Action0.key = c4Action1.key ∧
    c4Action1.signingCount = c4Action0.signingCount + 1 ∧
    foldActions (calculateRoot c4Action0.witness c4Action0.hash)
        [c4Action0, c4Action1] =
      .ok (F.poseidon2 (F.pkField 1) (F.lit 2)) := by
  decide

/-- C4 amended: the fold applies actions strictly in enqueue order, each
gated by asserting the running root equals
`computeRoot(action.witness, action.preHash)` before the increment and root
recomputation; an exact duplicate of a queued action (same witness and same
pre-state) always fails that precondition and aborts the whole fold — but an
identity can be advanced several times in one pass by a chain of actions
each carrying the previous post-increment state. -/
theorem claim4_fold_order_and_duplicates :
    (∀ (st : F) (a : Signer) (rest : List Signer),
        foldActions st (a :: rest) =
          if st = calculateRoot a.witness a.hash then
            foldActions (calculateRoot a.witness (a.sign).hash) rest
          else .error .doubleCounted) ∧
    (∀ (st : F) (L1 L2 L3 : List Signer) (a : Signer),
        foldActions st (L1 ++ (a :: (L2 ++ (a :: L3)))) = .error .doubleCounted) := by
  constructor
  · intro st a rest
    rfl
  · intro st L1 L2 L3 a
    cases h : foldActions st (L1 ++ (a :: (L2 ++ (a :: L3)))) with
    | error e => rw [foldActions_error h]
    | ok r =>
      exfalso
      obtain ⟨m1, h1, h2⟩ := foldActions_append_ok h
      obtain ⟨hm1, h3⟩ := foldActions_ok_cons h2
      obtain ⟨m2, h4, h5⟩ := foldActions_append_ok h3
      obtain ⟨hm2, -⟩ := foldActions_ok_cons h5
      have hmu := foldActions_ok_mu h4
      rw [hm2, mu_actionStep a] at hmu
      omega

/-- C5: the claim states that `register` requires `signingCount = 0` (true:
first conjunct) and that every successful registration commits the new
identity's leaf with attestation count 1 via the folded join action. No
registration ever commits: the loop dispatches every slot's signer
unconditionally (`part_000` line 451), including the sentinel empty signers,
and already the second queued action cannot satisfy the fold's root-equality
precondition — the maximally favourable call (zero registered signers so the
broken quorum check passes, a consistent target witness, an all-sentinel
batch) aborts with `DoubleCounted`. -/
theorem claim5_register_never_commits_join :
    register c5State c5BadSigner [] = .error .invalidSigningCount ∧
    c5NewSigner.signingCount = 0 ∧
    c5State.signersTree = calculateRoot c5NewSigner.witness Block.empty.hash ∧
    signerAllValid c5State.signersTree c5NewSigner (signerScan []) = true ∧
    register c5State c5NewSigner [] = .error .doubleCounted := by
  decide

/-- C6 counterexample: the claim states both operations reject with
`QuorumNotMet` when `identityCount = 0`. `register` has no such rejection:
with zero registered signers its quorum comparison `0 ≥ 0` passes and the
operation proceeds to the fold, failing there with `DoubleCounted`, not
`QuorumNotMet`. -/
theorem claim6_counterexample :
    c5State.signerCount = 0 ∧
    register c5State c5NewSigner [] = .error .doubleCounted ∧
    PhotonError.doubleCounted ≠ PhotonError.quorumNotMet := by
  decide

/-- C6 amended: `update` rejects with `QuorumNotMet` whenever
`signerCount = 0`, regardless of the batch (`part_000` line 363); `register`
never returns `QuorumNotMet` when `signerCount = 0` — its quorum comparison
is satisfied there. -/
theorem claim6_zero_identity_quorum :
    (∀ (s : PhotonState) (b : Block) (ps : List BlockProof),
        s.signerCount = 0 → update s b ps = .error .quorumNotMet) ∧
    (∀ (s : PhotonState) (ns : Signer) (ps : List SignerProof),
        s.signerCount = 0 → register s ns ps ≠ .error .quorumNotMet) := by
  constructor
  · intro s b ps h
    unfold update
    rw [if_pos h]
  · intro s ns ps h
    exact register_ne_quorumNotMet_of_zero s ns ps h

/-- C6 witness: the amended theorem applied at concrete zero-identity
states. -/
theorem claim6_witness :
    c6wState.signerCount = 0 ∧
    update c6wState c1Block [] = .error .quorumNotMet ∧
    c5State.signerCount = 0 ∧
    register c5State c5NewSigner [] ≠ .error .quorumNotMet :=
  ⟨rfl, claim6_zero_identity_quorum.1 c6wState c1Block [] rfl, rfl,
   claim6_zero_identity_quorum.2 c5State c5NewSigner [] rfl⟩

/-- C7: a batch containing a non-sentinel attestation that fails membership
or signature verification makes the operation abort — `update` folds every
slot's validity into `allValid` and asserts it, `register` asserts each slot
in place — and an aborted operation commits nothing, leaving every persisted
field unchanged. -/
theorem claim7_invalid_attestation_aborts :
    (∀ (s : PhotonState) (b : Block) (ps : List BlockProof) (p : BlockProof),
        p ∈ blockScan ps → p.isEmpty = false → p.verify s.signersTree b = false →
        opOk (update s b ps) = false) ∧
    (∀ (s : PhotonState) (ns : Signer) (ps : List SignerProof) (p : SignerProof),
        p ∈ signerScan ps → p.isEmpty = false → p.verify s.signersTree ns = false →
        opOk (register s ns ps) = false) := by
  constructor
  · intro s b ps p hmem hne hv
    cases hu : update s b ps with
    | ok r =>
      exfalso
      have hok : opOk (update s b ps) = true := by rw [hu]; rfl
      obtain ⟨-, hall, -⟩ := (update_ok_iff s b ps).mp hok
      unfold blockAllValid at hall
      have hslot := List.all_eq_true.mp hall p hmem
      simp [hne, hv] at hslot
    | error e =>
      rfl
  · intro s ns ps p hmem hne hv
    cases hr : register s ns ps with
    | ok r =>
      exfalso
      have hall := register_ok_allValid hr
      unfold signerAllValid at hall
      have hslot := List.all_eq_true.mp hall p hmem
      simp [hne, hv] at hslot
    | error e =>
      rfl

/-- C7 witness: the theorem applied to concrete batches each holding one
non-sentinel attestation with a bad signature. -/
theorem claim7_witness :
    (c7BadProof ∈ blockScan [c7BadProof] ∧ c7BadProof.isEmpty = false ∧
     c7BadProof.verify c1State.signersTree c1Block = false ∧
     opOk (update c1State c1Block [c7BadProof]) = false) ∧
    (c7qBadProof ∈ signerScan [c7qBadProof] ∧ c7qBadProof.isEmpty = false ∧
     c7qBadProof.verify c2State.signersTree c2NewSigner = false ∧
     opOk (register c2State c2NewSigner [c7qBadProof]) = false) :=
  ⟨⟨by decide, by decide, by decide,
    claim7_invalid_attestation_aborts.1 c1State c1Block [c7BadProof] c7BadProof
      (by decide) (by decide) (by decide)⟩,
   ⟨by decide, by decide, by decide,
    claim7_invalid_attestation_aborts.2 c2State c2NewSigner [c7qBadProof] c7qBadProof
      (by decide) (by decide) (by decide)⟩⟩

/-- C8 counterexample: the claim states that a successful `initialize` resets
the accumulator cursor to the action log's epoch-zero position. It does not
touch the cursor: initialising from a state whose cursor is 7 succeeds and
leaves the cursor at 7, not at `initialActionState`. -/
theorem claim8_counterexample :
    initializeContract c8State (F.lit 1) 5 (F.lit 2) = .ok c8ResultState ∧
    c8ResultState.signersTreeAccumulator ≠ initialActionState := by
  decide

/-- C8 amended: `initialize` succeeds exactly when logRoot, identityCount and
identityRoot are at their zero/sentinel values, and on success sets those
three fields to the caller-supplied values, leaving the action log and the
accumulator cursor untouched (the cursor is set to the epoch-zero position
only by the deployment-time `init()`). -/
theorem claim8_initialize_fields :
    (∀ (s : PhotonState) (a : F) (n : Nat) (r : F) (s2 : PhotonState),
        initializeContract s a n r = .ok s2 →
        s2.celestiaBlocksTree = a ∧ s2.signerCount = n ∧ s2.signersTree = r ∧
        s2.actionLog = s.actionLog ∧
        s2.signersTreeAccumulator = s.signersTreeAccumulator ∧
        s.celestiaBlocksTree = EMPTY_HASH ∧ s.signerCount = 0 ∧
        s.signersTree = EMPTY_HASH) ∧
    (∀ (s : PhotonState) (a : F) (n : Nat) (r : F),
        (s.celestiaBlocksTree ≠ EMPTY_HASH ∨ s.signerCount ≠ 0 ∨
          s.signersTree ≠ EMPTY_HASH) →
        initializeContract s a n r = .error .alreadyInitialized) := by
  constructor
  · intro s a n r s2 h
    unfold initializeContract at h
    split at h
    case isTrue => cases h
    case isFalse hc =>
      split at h
      case isTrue => cases h
      case isFalse hn =>
        split at h
        case isTrue => cases h
        case isFalse ht =>
          injection h with h2
          rw [← h2]
          exact ⟨rfl, rfl, rfl, rfl, rfl, not_not.mp hc, not_not.mp hn, not_not.mp ht⟩
  · intro s a n r hbad
    unfold initializeContract
    split
    case isTrue => rfl
    case isFalse h1 =>
      split
      case isTrue => rfl
      case isFalse h2 =>
        split
        case isTrue => rfl
        case isFalse h3 =>
          exfalso
          rcases hbad with hb | hb | hb
          · exact h1 hb
          · exact h2 hb
          · exact h3 hb

/-- C8 witness: the amended theorem applied at the concrete initialisation
from `c8State`. -/
theorem claim8_witness :
    c8ResultState.signersTreeAccumulator = c8State.signersTreeAccumulator ∧
    c8State.signerCount = 0 ∧
    initializeContract c8BadState (F.lit 1) 5 (F.lit 2) =
      .error .alreadyInitialized :=
  ⟨(claim8_initialize_fields.1 c8State (F.lit 1) 5 (F.lit 2) c8ResultState
      (by decide)).2.2.2.2.1,
   (claim8_initialize_fields.1 c8State (F.lit 1) 5 (F.lit 2) c8ResultState
      (by decide)).2.2.2.2.2.2.1,
   claim8_initialize_fields.2 c8BadState (F.lit 1) 5 (F.lit 2)
     (Or.inl (by decide))⟩

/-- C9: the `update` entry point takes exactly twenty proof slots; the scan
list is those twenty followed by sentinel padding, so at most twenty
non-sentinel attestations can be supplied, and for `identityCount ≥ 34` the
quorum `10*k ≥ 6*N` is unsatisfiable (`10*20 = 200 < 204 = 6*34`), so no
`update` call commits. -/
theorem claim9_twenty_slot_capacity (s : PhotonState) (b : Block)
    (p1 p2 p3 p4 p5 p6 p7 p8 p9 p10
     p11 p12 p13 p14 p15 p16 p17 p18 p19 p20 : BlockProof) :
    blockScan [p1, p2, p3, p4, p5, p6, p7, p8, p9, p10,
        p11, p12, p13, p14, p15, p16, p17, p18, p19, p20] =
      [p1, p2, p3, p4, p5, p6, p7, p8, p9, p10,
        p11, p12, p13, p14, p15, p16, p17, p18, p19, p20] ++
        List.replicate 180 BlockProof.empty ∧
    blockSignerCount (blockScan [p1, p2, p3, p4, p5, p6, p7, p8, p9, p10,
        p11, p12, p13, p14, p15, p16, p17, p18, p19, p20]) ≤ 20 ∧
    (34 ≤ s.signerCount →
      opOk (updateEntry s b p1 p2 p3 p4 p5 p6 p7 p8 p9 p10
        p11 p12 p13 p14 p15 p16 p17 p18 p19 p20) = false) := by
  refine ⟨?_, ?_, ?_⟩
  · rw [blockScan_eq, List.take_of_length_le (by simp)]
    norm_num
  · have h := blockSignerCount_scan_le
      [p1, p2, p3, p4, p5, p6, p7, p8, p9, p10,
       p11, p12, p13, p14, p15, p16, p17, p18, p19, p20]
    simpa using h
  · intro h34
    by_contra hne
    rw [Bool.not_eq_false] at hne
    unfold updateEntry at hne
    obtain ⟨-, -, hq⟩ := (update_ok_iff s b _).mp hne
    have hle := blockSignerCount_scan_le
      [p1, p2, p3, p4, p5, p6, p7, p8, p9, p10,
       p11, p12, p13, p14, p15, p16, p17, p18, p19, p20]
    simp at hle
    omega

/-- C9 witness: the capacity theorem applied at an all-sentinel batch against
a 34-identity state. -/
theorem claim9_witness :
    34 ≤ c9State.signerCount ∧
    opOk (updateEntry c9State c1Block BlockProof.empty BlockProof.empty
      BlockProof.empty BlockProof.empty BlockProof.empty BlockProof.empty
      BlockProof.empty BlockProof.empty BlockProof.empty BlockProof.empty
      BlockProof.empty BlockProof.empty BlockProof.empty BlockProof.empty
      BlockProof.empty BlockProof.empty BlockProof.empty BlockProof.empty
      BlockProof.empty BlockProof.empty) = false :=
  ⟨by decide,
   (claim9_twenty_slot_capacity c9State c1Block BlockProof.empty BlockProof.empty
      BlockProof.empty BlockProof.empty BlockProof.empty BlockProof.empty
      BlockProof.empty BlockProof.empty BlockProof.empty BlockProof.empty
      BlockProof.empty BlockProof.empty BlockProof.empty BlockProof.empty
      BlockProof.empty BlockProof.empty BlockProof.empty BlockProof.empty
      BlockProof.empty BlockProof.empty).2.2 (by decide)⟩

/-- C10: `update`'s quorum count adds one per non-sentinel slot with no
per-identity deduplication: a batch of `k` copies of one attestation counts
`k`, and two copies of a single registered identity's valid attestation
satisfy the 60% threshold against two registered identities on their own. -/
theorem claim10_count_has_no_dedup :
    (∀ (p : BlockProof) (k : Nat), k ≤ 200 → p.isEmpty = false →
        blockSignerCount (blockScan (List.replicate k p)) = k) ∧
    (c10State.signerCount = 2 ∧
     blockSignerCount (blockScan [c1Proof, c1Proof]) = 2 ∧
     opOk (update c10State c1Block [c1Proof, c1Proof]) = true) := by
  constructor
  · intro p k hk hp
    exact blockSignerCount_scan_replicate p k hk hp
  · refine ⟨rfl, by decide, by decide⟩

/-- C10 witness: the no-deduplication count applied at two copies of the
concrete valid attestation. -/
theorem claim10_witness :
    (2 : Nat) ≤ 200 ∧ c1Proof.isEmpty = false ∧
    blockSignerCount (blockScan (List.replicate 2 c1Proof)) = 2 :=
  ⟨by decide, by decide, claim10_count_has_no_dedup.1 c1Proof 2 (by decide) (by decide)⟩

end Photon



